import Mathlib

/-!
Verification development for the StormGuard Disaster Alert Targeting and
Dispatch Engine.  The definitions below are a shallow embedding of:

* `api/services/notification_service.py` — `NotificationService.send_alert`,
  `send_bulk_alerts`, `_should_send_notification`, `_create_notification`
  (risk-level classification), `_create_alert_record`;
* `airflow/dags/alert_trigger_dag.py` — the candidate-selection SQL of
  `identify_affected_users`, its per-user risk-threshold check, and the
  helper `_get_risk_level`;
* `api/routers/alerts.py` — the field updates of `mark_alert_read` and
  `record_alert_click`;
* `data_pipeline/db_models.py` — the `Alert` and `UserPreference` rows
  (column defaults included).

Risk scores (Python floats that are only ever compared against the literal
thresholds) are modelled as rationals; latitudes and longitudes in the
geospatial bounding-box computation are modelled as real numbers, with
`Real.cos` standing for `math.cos`.  Timestamps (`datetime.utcnow()`) are
modelled as natural numbers supplied by the environment.
-/

namespace StormGuard

/-- A `user_preferences` row (`db_models.UserPreference`): the four
per-disaster-type flags, the minimum risk level and the alert radius.
Fields not consulted by the dispatch core are omitted. -/
structure UserPreference where
  hurricane_alerts : Bool
  heat_wave_alerts : Bool
  flood_alerts : Bool
  severe_storm_alerts : Bool
  min_risk_level : String
  alert_radius_km : Int
  deriving Repr, DecidableEq

/-- The column defaults of `db_models.UserPreference`: every disaster type
enabled, `min_risk_level = "MEDIUM"`, `alert_radius_km = 100`. -/
def defaultPreference : UserPreference :=
  { hurricane_alerts := true
    heat_wave_alerts := true
    flood_alerts := true
    severe_storm_alerts := true
    min_risk_level := "MEDIUM"
    alert_radius_km := 100 }

/-- The `alert_data` dict assembled by the `/alerts/send` router and passed
to `NotificationService.send_alert`. -/
structure AlertData where
  disaster_type : String
  title : String
  message : String
  risk_level : String
  risk_score : ℚ
  latitude : ℚ
  longitude : ℚ
  location : String
  radius_km : Int
  deriving Repr, DecidableEq

/-- Python `str.lower()` restricted to its ASCII behaviour, as a map over
the character list (all disaster-type strings in this codebase are
ASCII). -/
def pyLower (s : String) : String := ⟨s.data.map Char.toLower⟩

/-- The `type_map` dict of `NotificationService._should_send_notification`:
disaster type → preference-flag attribute name (`dict.get` as an
if-chain, absent keys give `none`). -/
def service_type_map (t : String) : Option String :=
  if t = "hurricane" then some "hurricane_alerts"
  else if t = "heat_wave" then some "heat_wave_alerts"
  else if t = "flood" then some "flood_alerts"
  else if t = "severe_storm" then some "severe_storm_alerts"
  else if t = "tornado" then some "severe_storm_alerts"
  else if t = "wildfire" then some "severe_storm_alerts"
  else none

/-- `getattr(preferences, pref_field, True)`: read the named flag off a
`UserPreference` row, defaulting to `True` for unknown attribute names. -/
def getPrefFlag (p : UserPreference) (field : String) : Bool :=
  if field = "hurricane_alerts" then p.hurricane_alerts
  else if field = "heat_wave_alerts" then p.heat_wave_alerts
  else if field = "flood_alerts" then p.flood_alerts
  else if field = "severe_storm_alerts" then p.severe_storm_alerts
  else true

/-- The disaster-type gate of `_should_send_notification`: look up the
preference field for the (lowercased) disaster type; when the type is
mapped and the flag is off the notification is blocked, unmapped types
pass. -/
def service_type_allowed (p : UserPreference) (t : String) : Bool :=
  match service_type_map t with
  | some field => getPrefFlag p field
  | none => true

/-- The `min_risk` dict of `_should_send_notification`
(note `"CRITICAL" ↦ 0.9`). -/
def service_min_risk (lvl : String) : Option ℚ :=
  if lvl = "LOW" then some (3/10)
  else if lvl = "MEDIUM" then some (6/10)
  else if lvl = "HIGH" then some (8/10)
  else if lvl = "CRITICAL" then some (9/10)
  else none

/-- `min_risk.get(preferences.min_risk_level, 0.6)`. -/
def serviceThreshold (lvl : String) : ℚ :=
  (service_min_risk lvl).getD (6/10)

/-- The risk rule of `_should_send_notification`:
`if risk_score < threshold: return False`. -/
def service_risk_rejects (lvl : String) (riskScore : ℚ) : Bool :=
  riskScore < serviceThreshold lvl

/-- `NotificationService._should_send_notification(alert_data, preferences)`:
with no preference row the answer is unconditionally `True`; otherwise the
type gate runs first, then the risk-threshold rule. -/
def should_send_notification (a : AlertData) (preferences : Option UserPreference) :
    Bool :=
  match preferences with
  | none => true
  | some p =>
      if !(service_type_allowed p (pyLower a.disaster_type)) then false
      else if service_risk_rejects p.min_risk_level a.risk_score then false
      else true

/-- The risk-level classification inside
`NotificationService._create_notification`
(`>= 0.9 → CRITICAL, >= 0.8 → HIGH, >= 0.6 → MEDIUM, else LOW`). -/
def service_notification_risk_level (riskScore : ℚ) : String :=
  if riskScore ≥ 9/10 then "CRITICAL"
  else if riskScore ≥ 8/10 then "HIGH"
  else if riskScore ≥ 6/10 then "MEDIUM"
  else "LOW"

/-- The `risk_threshold_map` of the alert-trigger DAG
(`identify_affected_users`; note `"CRITICAL" ↦ 0.95`). -/
def dag_risk_threshold_map (lvl : String) : Option ℚ :=
  if lvl = "LOW" then some (30/100)
  else if lvl = "MEDIUM" then some (60/100)
  else if lvl = "HIGH" then some (80/100)
  else if lvl = "CRITICAL" then some (95/100)
  else none

/-- The DAG row carries `min_risk_level` as a nullable column (`NULL` when
the user has no preference row); `risk_threshold_map.get(lvl, 0.60)`. -/
def dagThreshold (lvl : Option String) : ℚ :=
  match lvl with
  | none => 60/100
  | some s => (dag_risk_threshold_map s).getD (60/100)

/-- The DAG's per-user risk check:
`risk_score >= risk_threshold_map.get(min_risk_level, 0.60)`. -/
def dag_risk_accepts (lvl : Option String) (riskScore : ℚ) : Bool :=
  dagThreshold lvl ≤ riskScore

/-- `COALESCE(up.flag, true)` over the LEFT-JOINed preference row. -/
def coalesceFlag (prefs : Option UserPreference) (flag : UserPreference → Bool) :
    Bool :=
  match prefs with
  | none => true
  | some p => flag p

/-- The disaster-type OR-chain in the candidate-selection SQL of
`identify_affected_users`. -/
def dagTypeGate (t : String) (prefs : Option UserPreference) : Bool :=
  (decide (t = "hurricane") && coalesceFlag prefs (·.hurricane_alerts))
  || (decide (t = "heat_wave") && coalesceFlag prefs (·.heat_wave_alerts))
  || (decide (t = "flood") && coalesceFlag prefs (·.flood_alerts))
  || (decide (t = "severe_storm") && coalesceFlag prefs (·.severe_storm_alerts))
  || (decide (t = "tornado") && coalesceFlag prefs (·.severe_storm_alerts))
  || (decide (t = "wildfire") && coalesceFlag prefs (·.severe_storm_alerts))

/-- An `alerts` row (`db_models.Alert`).  Timestamps are abstract ticks. -/
structure AlertRecord where
  user_id : String
  disaster_type : String
  title : String
  message : String
  risk_level : String
  risk_score : ℚ
  latitude : ℚ
  longitude : ℚ
  radius_km : Int
  sent : Bool
  read : Bool
  clicked : Bool
  created_at : Nat
  sent_at : Option Nat
  read_at : Option Nat
  deriving Repr, DecidableEq

/-- `NotificationService._create_alert_record`: a new `Alert` row with
`sent=True, sent_at=now`; `read`, `clicked` and `read_at` keep their
column defaults (`False`, `False`, `NULL`). -/
def create_alert_record (userId : String) (a : AlertData) (now : Nat) :
    AlertRecord :=
  { user_id := userId
    disaster_type := a.disaster_type
    title := a.title
    message := a.message
    risk_level := a.risk_level
    risk_score := a.risk_score
    latitude := a.latitude
    longitude := a.longitude
    radius_km := a.radius_km
    sent := true
    read := false
    clicked := false
    created_at := now
    sent_at := some now
    read_at := none }

/-- The field updates of the router endpoint `mark_alert_read`
(`alert.read = True; alert.read_at = datetime.utcnow()`). -/
def mark_alert_read (al : AlertRecord) (now : Nat) : AlertRecord :=
  { al with read := true, read_at := some now }

/-- The field updates of the router endpoint `record_alert_click`
(`alert.clicked = True; alert.read = True; alert.read_at = utcnow()`). -/
def record_alert_click (al : AlertRecord) (now : Nat) : AlertRecord :=
  { al with clicked := true, read := true, read_at := some now }

/-- A `users` row as seen by `send_alert` (id and FCM device token). -/
structure DbUser where
  id : String
  notification_token : Option String
  deriving Repr, DecidableEq

/-- Python truthiness test `not user.notification_token`: the token is
falsy when `NULL` or the empty string. -/
def token_falsy : Option String → Bool
  | none => true
  | some s => s.isEmpty

/-- The environment a dispatch cycle runs against: whether the Firebase
app initialised, the user and preference stores, the FCM transport
(`messaging.send`, keyed by device token, raising = `Except.error`), and
the current clock tick. -/
structure SendEnv where
  appInitialized : Bool
  findUser : String → Option DbUser
  findPrefs : String → Option UserPreference
  transport : String → Except String String
  now : Nat

/-- The three terminal per-user outcomes of `send_alert`, read off the
returned dict: `success` (`success: True`), `skipped`
(`success: False, skipped: True`), `failure` (`success: False` with an
`error` string). -/
inductive SendResult where
  | success (messageId : String)
  | skipped (reason : String)
  | failure (error : String)
  deriving Repr, DecidableEq

/-- `NotificationService.send_alert`: guard on Firebase initialisation,
user/token lookup, the send-time eligibility re-check, then the transport
call; a transport error is caught and reported as a failure dict.  The
second component is the list of `Alert` rows the call persists. -/
def send_alert (env : SendEnv) (a : AlertData) (userId : String) :
    SendResult × List AlertRecord :=
  if !env.appInitialized then
    (.failure "Firebase not initialized", [])
  else
    match env.findUser userId with
    | none => (.failure "User or device token not found", [])
    | some user =>
        if token_falsy user.notification_token then
          (.failure "User or device token not found", [])
        else
          if !should_send_notification a (env.findPrefs userId) then
            (.skipped "Alert disabled in user preferences", [])
          else
            match env.transport (user.notification_token.getD "") with
            | .error e => (.failure e, [])
            | .ok messageId =>
                (.success messageId, [create_alert_record userId a env.now])

/-- Classifier of the `Sent` outcome (`result["success"]` is truthy). -/
def isSent : SendResult → Bool
  | .success _ => true
  | _ => false

/-- The aggregate dict built by `send_bulk_alerts`. -/
structure BulkResults where
  total : Nat
  sent : Nat
  failed : Nat
  skipped : Nat
  errors : List (String × String)
  deriving Repr, DecidableEq

/-- One dispatch cycle's outcome: the aggregate counters, the persisted
`Alert` rows, and the sequence of user ids `send_alert` was invoked on. -/
structure CycleOutcome where
  results : BulkResults
  alerts : List AlertRecord
  attempts : List String
  deriving Repr, DecidableEq

/-- The `for user_id in users` loop of `send_bulk_alerts`: classify each
`send_alert` result into `sent`/`skipped`/`failed`, appending an
`(user_id, error)` entry for each failure. -/
def bulk_loop (env : SendEnv) (a : AlertData) : List String → CycleOutcome
  | [] =>
      { results := { total := 0, sent := 0, failed := 0, skipped := 0, errors := [] }
        alerts := []
        attempts := [] }
  | userId :: rest =>
      let r := send_alert env a userId
      let s := bulk_loop env a rest
      match r.1 with
      | .success _ =>
          { results := { s.results with total := s.results.total + 1
                                        sent := s.results.sent + 1 }
            alerts := r.2 ++ s.alerts
            attempts := userId :: s.attempts }
      | .skipped _ =>
          { results := { s.results with total := s.results.total + 1
                                        skipped := s.results.skipped + 1 }
            alerts := r.2 ++ s.alerts
            attempts := userId :: s.attempts }
      | .failure e =>
          { results := { s.results with total := s.results.total + 1
                                        failed := s.results.failed + 1
                                        errors := (userId, e) :: s.results.errors }
            alerts := r.2 ++ s.alerts
            attempts := userId :: s.attempts }

/-- `NotificationService.send_bulk_alerts`: run the loop over the given
user-id list and return the structured summary (never an exception). -/
def send_bulk_alerts (env : SendEnv) (users : List String) (a : AlertData) :
    CycleOutcome :=
  bulk_loop env a users

/-- The helper `_get_risk_level` of the alert-trigger DAG
(`>= 0.95 → CRITICAL, >= 0.80 → HIGH, >= 0.60 → MEDIUM, else LOW`). -/
def dag_get_risk_level (riskScore : ℚ) : String :=
  if riskScore ≥ 95/100 then "CRITICAL"
  else if riskScore ≥ 80/100 then "HIGH"
  else if riskScore ≥ 60/100 then "MEDIUM"
  else "LOW"

/-- `math.radians(x) = x * (pi / 180)`. -/
noncomputable def radians (x : ℝ) : ℝ := x * (Real.pi / 180)

/-- `lat_offset = radius_km / 111.0` (`identify_affected_users`). -/
noncomputable def lat_offset_of (radius_km : ℝ) : ℝ := radius_km / 111

/-- `lon_offset = radius_km / (111.0 * cos(radians(pred_lat)))`. -/
noncomputable def lon_offset_of (radius_km lat : ℝ) : ℝ :=
  radius_km / (111 * Real.cos (radians lat))

/-- A prediction row as consumed by `identify_affected_users`. -/
structure Prediction where
  disaster_type : String
  risk_score : ℚ
  latitude : ℝ
  longitude : ℝ
  radius_km : ℝ

/-- A `users` row as selected by the candidate-selection SQL, together
with its LEFT-JOINed preference row. -/
structure DagUser where
  id : String
  latitude : ℝ
  longitude : ℝ
  notification_token : Option String
  notification_enabled : Bool
  prefs : Option UserPreference

/-- The WHERE clause of the candidate-selection SQL of
`identify_affected_users`: `notification_enabled`, a non-NULL token, the
disaster-type OR-chain, and the inclusive `BETWEEN` bounding box built
from `lat_offset` and `lon_offset`. -/
def dag_candidate (p : Prediction) (u : DagUser) : Prop :=
  u.notification_enabled = true ∧
  u.notification_token.isSome = true ∧
  dagTypeGate p.disaster_type u.prefs = true ∧
  (p.latitude - lat_offset_of p.radius_km ≤ u.latitude ∧
    u.latitude ≤ p.latitude + lat_offset_of p.radius_km) ∧
  (p.longitude - lon_offset_of p.radius_km p.latitude ≤ u.longitude ∧
    u.longitude ≤ p.longitude + lon_offset_of p.radius_km p.latitude)

/-! Concrete fixtures used in counterexamples and witnesses. -/

/-- A concrete alert payload (flood, risk score 0.9). -/
def alertFlood : AlertData :=
  { disaster_type := "flood", title := "Flood Alert", message := "m"
    risk_level := "HIGH", risk_score := 9/10, latitude := 0, longitude := 0
    location := "(0, 0)", radius_km := 100 }

/-- The same payload at risk score 0.5. -/
def alertFloodLow : AlertData := { alertFlood with risk_score := 1/2 }

/-- The same payload at risk score 0.7. -/
def alertFloodMid : AlertData := { alertFlood with risk_score := 7/10 }

/-- An all-default preference row whose `min_risk_level` is `CRITICAL`. -/
def prefCritical : UserPreference :=
  { defaultPreference with min_risk_level := "CRITICAL" }

/-- An environment where every user exists with a distinct valid token and
the transport accepts everything. -/
def envAllOk : SendEnv :=
  { appInitialized := true
    findUser := fun uid => some { id := uid, notification_token := some (uid ++ "-tok") }
    findPrefs := fun _ => none
    transport := fun _ => .ok "projects/sg/messages/1"
    now := 0 }

/-- An environment where the transport fails (raises) exactly for the
device token of user `u2` and accepts every other send. -/
def envFailU2 : SendEnv :=
  { appInitialized := true
    findUser := fun uid => some { id := uid, notification_token := some uid }
    findPrefs := fun _ => none
    transport := fun tok => if tok = "u2" then .error "timeout" else .ok "projects/sg/messages/1"
    now := 0 }

/-- A prediction at the origin with a 111 km radius (spec §8 example). -/
noncomputable def predOrigin : Prediction :=
  { disaster_type := "flood", risk_score := 9/10
    latitude := 0, longitude := 0, radius_km := 111 }

/-- A user one degree of latitude north of the origin. -/
noncomputable def userOneDegree : DagUser :=
  { id := "a", latitude := 1, longitude := 0
    notification_token := some "tok-a", notification_enabled := true
    prefs := none }

/-- A user two degrees of latitude north of the origin. -/
noncomputable def userTwoDegrees : DagUser :=
  { id := "b", latitude := 2, longitude := 0
    notification_token := some "tok-b", notification_enabled := true
    prefs := none }

/-- A freshly dispatched alert row for the fixtures above. -/
def alertRow0 : AlertRecord := create_alert_record "u1" alertFlood 0

/-- `alertRow0` after `record_alert_click` at tick 1. -/
def alertRowClicked : AlertRecord := record_alert_click alertRow0 1

/-- `alertRowClicked` after `mark_alert_read` at tick 2. -/
def alertRowReread : AlertRecord := mark_alert_read alertRowClicked 2

/-- The Alert invariants of spec §3: `clicked ⟹ read`, `read_at` set iff
`read`, `sent_at` set iff `sent`. -/
def AlertInv (al : AlertRecord) : Prop :=
  (al.clicked = true → al.read = true) ∧
  (al.read_at.isSome = true ↔ al.read = true) ∧
  (al.sent_at.isSome = true ↔ al.sent = true)

instance (al : AlertRecord) : Decidable (AlertInv al) := by
  unfold AlertInv; infer_instance

/-! Helper lemmas shared between several claim theorems. -/

/-- The loop of `send_bulk_alerts` tallies every user exactly once. -/
lemma bulk_loop_invariants (env : SendEnv) (a : AlertData) (users : List String) :
    (bulk_loop env a users).results.total = users.length ∧
    (bulk_loop env a users).results.sent + (bulk_loop env a users).results.failed +
      (bulk_loop env a users).results.skipped = users.length ∧
    (bulk_loop env a users).results.errors.length = (bulk_loop env a users).results.failed ∧
    (bulk_loop env a users).attempts = users := by
  induction users with
  | nil => simp [bulk_loop]
  | cons userId rest ih =>
      obtain ⟨ih1, ih2, ih3, ih4⟩ := ih
      cases hr : (send_alert env a userId).1 <;>
        simp [bulk_loop, hr, ih1, ih3, ih4] <;> omega

/-- Every disaster type passes the type gate under the all-default
preference row. -/
lemma default_type_allowed (t : String) :
    service_type_allowed defaultPreference t = true := by
  unfold service_type_allowed service_type_map
  split_ifs <;> simp [getPrefFlag, defaultPreference]

/-- C1 as frozen is refuted on duplicate input: passing the same user id
twice makes `send_bulk_alerts` attempt (and send) twice for that id within
one cycle, so "exactly one send attempt per user id" fails. -/
theorem C1_counterexample_duplicate_ids :
    (send_bulk_alerts envAllOk ["u1", "u1"] alertFlood).attempts.count "u1" = 2 ∧
    (send_bulk_alerts envAllOk ["u1", "u1"] alertFlood).results.sent = 2 := by
  decide

/-- C1 (amended): for every input list the aggregate satisfies
`total = length`, `sent + failed + skipped = total`, one error entry per
failed user, and exactly one send attempt per entry of the list — hence
exactly one attempt per user id whenever the ids are pairwise distinct;
a transport failure for one user never suppresses the other attempts, and
the engine returns a structured result (witnessed by the concrete
3-user cycle where the transport fails exactly for `u2`). -/
theorem C1_bulk_dispatch_aggregate (env : SendEnv) (a : AlertData)
    (users : List String) :
    (send_bulk_alerts env users a).results.total = users.length ∧
    (send_bulk_alerts env users a).results.sent +
      (send_bulk_alerts env users a).results.failed +
      (send_bulk_alerts env users a).results.skipped =
      (send_bulk_alerts env users a).results.total ∧
    (send_bulk_alerts env users a).results.errors.length =
      (send_bulk_alerts env users a).results.failed ∧
    (send_bulk_alerts env users a).attempts = users ∧
    (users.Nodup → ∀ uid ∈ users,
      (send_bulk_alerts env users a).attempts.count uid = 1) ∧
    (send_bulk_alerts envFailU2 ["u1", "u2", "u3"] alertFlood).results =
      { total := 3, sent := 2, failed := 1, skipped := 0,
        errors := [("u2", "timeout")] } ∧
    (send_bulk_alerts envFailU2 ["u1", "u2", "u3"] alertFlood).alerts.length = 2 := by
  obtain ⟨h1, h2, h3, h4⟩ := bulk_loop_invariants env a users
  refine ⟨h1, ?_, h3, h4, ?_, by decide, by decide⟩
  · show (bulk_loop env a users).results.sent + (bulk_loop env a users).results.failed +
        (bulk_loop env a users).results.skipped = (bulk_loop env a users).results.total
    rw [h1]; exact h2
  intro hnd uid hmem
  show (bulk_loop env a users).attempts.count uid = 1
  rw [h4]
  exact List.count_eq_one_of_mem hnd hmem

/-- C1 witness: the amended theorem applied to the concrete 3-user cycle
with pairwise-distinct ids. -/
theorem C1_witness :
    (send_bulk_alerts envFailU2 ["u1", "u2", "u3"] alertFlood).attempts.count "u2" = 1 :=
  (C1_bulk_dispatch_aggregate envFailU2 alertFlood ["u1", "u2", "u3"]).2.2.2.2.1
    (by decide) "u2" (by decide)

/-- C2 as frozen is refuted at the send-time eligibility check: for a user
with `min_risk_level = "CRITICAL"` a payload with probability 0.9 (below
the claimed 0.95 threshold) is NOT rejected — the service's `min_risk`
table maps CRITICAL to 0.9. -/
theorem C2_counterexample_critical_090 :
    prefCritical.min_risk_level = "CRITICAL" ∧
    alertFlood.risk_score < 95/100 ∧
    should_send_notification alertFlood (some prefCritical) = true := by
  have ht : pyLower "flood" = "flood" := by decide
  refine ⟨rfl, by norm_num [alertFlood], ?_⟩
  simp [should_send_notification, service_type_allowed, service_type_map, getPrefFlag,
    service_risk_rejects, serviceThreshold, service_min_risk, alertFlood, prefCritical,
    defaultPreference, ht]

/-- C2 (amended): when the type gate passes, the send-time check rejects
exactly when the probability is strictly below the threshold mapped from
`min_risk_level`; the table is LOW→0.30, MEDIUM→0.60, HIGH→0.80 at both
sites, but CRITICAL→0.90 at the send-time check while the DAG's selection
table maps CRITICAL→0.95. -/
theorem C2_risk_threshold_tables :
    (∀ (p : UserPreference) (a : AlertData),
      service_type_allowed p (pyLower a.disaster_type) = true →
      (should_send_notification a (some p) = false ↔
        a.risk_score < serviceThreshold p.min_risk_level)) ∧
    serviceThreshold "LOW" = 3/10 ∧ serviceThreshold "MEDIUM" = 6/10 ∧
    serviceThreshold "HIGH" = 8/10 ∧ serviceThreshold "CRITICAL" = 9/10 ∧
    dagThreshold (some "LOW") = 30/100 ∧ dagThreshold (some "MEDIUM") = 60/100 ∧
    dagThreshold (some "HIGH") = 80/100 ∧ dagThreshold (some "CRITICAL") = 95/100 := by
  refine ⟨?_, rfl, rfl, rfl, rfl, rfl, rfl, rfl, rfl⟩
  intro p a h
  by_cases hr : a.risk_score < serviceThreshold p.min_risk_level <;>
    simp [should_send_notification, h, service_risk_rejects, hr]

/-- C2 witness: the amended equivalence instantiated at a CRITICAL user
and a payload with probability 0.5, which is rejected. -/
theorem C2_witness :
    should_send_notification alertFloodLow (some prefCritical) = false :=
  (C2_risk_threshold_tables.1 prefCritical alertFloodLow (by decide)).mpr
    (by
      have h : serviceThreshold prefCritical.min_risk_level = 9/10 := rfl
      rw [h]
      norm_num [alertFloodLow, alertFlood])

/-- C3 as frozen is refuted: for a payload with probability 0.5 the user
with no Preference record is sent to (the check returns `True`
unconditionally), while the otherwise-identical user with an explicit
all-default row is skipped (MEDIUM threshold 0.6 applies). -/
theorem C3_counterexample_low_risk :
    should_send_notification alertFloodLow none = true ∧
    should_send_notification alertFloodLow (some defaultPreference) = false := by
  have ht : pyLower "flood" = "flood" := by decide
  refine ⟨by decide, ?_⟩
  simp [should_send_notification, service_type_allowed, service_type_map, getPrefFlag,
    service_risk_rejects, serviceThreshold, service_min_risk, alertFloodLow, alertFlood,
    defaultPreference, ht]
  norm_num

/-- C3 (amended): the no-record user and the all-default-record user get
the same decision exactly for payloads with probability ≥ 0.60; below
that, the no-record user is sent unconditionally while the all-default
user is skipped by the MEDIUM threshold. -/
theorem C3_default_preference_equivalence (a : AlertData) :
    (6/10 ≤ a.risk_score →
      should_send_notification a none =
        should_send_notification a (some defaultPreference)) ∧
    (a.risk_score < 6/10 →
      should_send_notification a none = true ∧
      should_send_notification a (some defaultPreference) = false) := by
  have hth : serviceThreshold defaultPreference.min_risk_level = 6/10 := rfl
  constructor
  · intro h
    have hr : service_risk_rejects defaultPreference.min_risk_level a.risk_score = false := by
      simp [service_risk_rejects, hth]
      linarith
    simp [should_send_notification, default_type_allowed, hr]
  · intro h
    have hr : service_risk_rejects defaultPreference.min_risk_level a.risk_score = true := by
      simp [service_risk_rejects, hth, h]
    simp [should_send_notification, default_type_allowed, hr]

/-- C3 witness: at probability 0.7 the two decisions coincide. -/
theorem C3_witness :
    should_send_notification alertFloodMid none =
      should_send_notification alertFloodMid (some defaultPreference) :=
  (C3_default_preference_equivalence alertFloodMid).1
    (by norm_num [alertFloodMid, alertFlood])

/-- C4: `send_alert` persists an Alert row exactly when its outcome is
`Sent`; that row has `sent = true` and `sent_at` set to the dispatch
time; `Skipped` and `Failed` outcomes persist nothing. -/
theorem C4_alert_record_iff_sent (env : SendEnv) (a : AlertData) (userId : String) :
    (send_alert env a userId).2 =
      (if isSent (send_alert env a userId).1
        then [create_alert_record userId a env.now] else []) ∧
    (create_alert_record userId a env.now).sent = true ∧
    (create_alert_record userId a env.now).sent_at = some env.now := by
  refine ⟨?_, rfl, rfl⟩
  unfold send_alert
  repeat' split
  all_goals first | rfl | simp_all [isSent]

/-- C5: the candidate-selection predicate admits a directory-eligible,
type-eligible user exactly when the user's latitude and longitude lie in
the inclusive bounding box `lat ± radius/111`,
`lon ± radius/(111·cos(radians(lat)))`; concretely, for a prediction at
the origin with a 111 km radius, a user at (1, 0) is selected and a user
at (2, 0) is not. -/
theorem C5_bounding_box_selection :
    (∀ (p : Prediction) (u : DagUser),
      u.notification_enabled = true →
      u.notification_token.isSome = true →
      dagTypeGate p.disaster_type u.prefs = true →
      (dag_candidate p u ↔
        ((p.latitude - p.radius_km / 111 ≤ u.latitude ∧
          u.latitude ≤ p.latitude + p.radius_km / 111) ∧
         (p.longitude - p.radius_km / (111 * Real.cos (radians p.latitude)) ≤ u.longitude ∧
          u.longitude ≤ p.longitude + p.radius_km / (111 * Real.cos (radians p.latitude)))))) ∧
    dag_candidate predOrigin userOneDegree ∧
    ¬ dag_candidate predOrigin userTwoDegrees := by
  refine ⟨?_, ?_, ?_⟩
  · intro p u h1 h2 h3
    exact ⟨fun h => ⟨⟨h.2.2.2.1.1, h.2.2.2.1.2⟩, ⟨h.2.2.2.2.1, h.2.2.2.2.2⟩⟩,
      fun h => ⟨h1, h2, h3, ⟨h.1.1, h.1.2⟩, ⟨h.2.1, h.2.2⟩⟩⟩
  · refine ⟨rfl, rfl, by decide, ?_, ?_⟩ <;>
      constructor <;>
        simp [predOrigin, userOneDegree, lat_offset_of, lon_offset_of, radians,
          Real.cos_zero]
  · intro h
    obtain ⟨-, -, -, ⟨-, h2⟩, -⟩ := h
    rw [predOrigin, userTwoDegrees] at h2
    simp [lat_offset_of] at h2

/-- C5 witness: the bounding-box equivalence instantiated at the origin
prediction and the user one degree north. -/
theorem C5_witness :
    dag_candidate predOrigin userOneDegree ↔
      ((predOrigin.latitude - predOrigin.radius_km / 111 ≤ userOneDegree.latitude ∧
        userOneDegree.latitude ≤ predOrigin.latitude + predOrigin.radius_km / 111) ∧
       (predOrigin.longitude -
          predOrigin.radius_km / (111 * Real.cos (radians predOrigin.latitude)) ≤
          userOneDegree.longitude ∧
        userOneDegree.longitude ≤ predOrigin.longitude +
          predOrigin.radius_km / (111 * Real.cos (radians predOrigin.latitude)))) :=
  C5_bounding_box_selection.1 predOrigin userOneDegree rfl rfl (by decide)

/-- C6 as frozen is refuted: after `mark-clicked` (tick 1) a further
`mark-read` (tick 2) keeps `read` and `clicked` true but DOES change
`read_at` — the endpoint unconditionally overwrites it with the current
time. -/
theorem C6_counterexample_read_at_overwritten :
    alertRowClicked.read = true ∧ alertRowClicked.clicked = true ∧
    alertRowClicked.read_at = some 1 ∧
    alertRowReread.read_at = some 2 ∧
    alertRowReread.read_at ≠ alertRowClicked.read_at := by
  decide

/-- C6 (amended): `mark-clicked` on a sent alert yields
`read = true, clicked = true`; a subsequent `mark-read` succeeds (no
error), leaves `clicked` and `read` true and every other field unchanged,
except that it overwrites `read_at` with the current time. -/
theorem C6_engagement_after_click (al : AlertRecord) (t1 t2 : Nat) :
    (record_alert_click al t1).read = true ∧
    (record_alert_click al t1).clicked = true ∧
    (mark_alert_read (record_alert_click al t1) t2).clicked = true ∧
    (mark_alert_read (record_alert_click al t1) t2).read = true ∧
    (mark_alert_read (record_alert_click al t1) t2).read_at = some t2 ∧
    (mark_alert_read (record_alert_click al t1) t2).sent = al.sent ∧
    (mark_alert_read (record_alert_click al t1) t2).sent_at = al.sent_at ∧
    (mark_alert_read (record_alert_click al t1) t2).user_id = al.user_id ∧
    (mark_alert_read (record_alert_click al t1) t2).disaster_type = al.disaster_type ∧
    (mark_alert_read (record_alert_click al t1) t2).title = al.title ∧
    (mark_alert_read (record_alert_click al t1) t2).message = al.message ∧
    (mark_alert_read (record_alert_click al t1) t2).risk_level = al.risk_level ∧
    (mark_alert_read (record_alert_click al t1) t2).risk_score = al.risk_score ∧
    (mark_alert_read (record_alert_click al t1) t2).latitude = al.latitude ∧
    (mark_alert_read (record_alert_click al t1) t2).longitude = al.longitude ∧
    (mark_alert_read (record_alert_click al t1) t2).radius_km = al.radius_km ∧
    (mark_alert_read (record_alert_click al t1) t2).created_at = al.created_at := by
  repeat' constructor

/-- C7: dispatch-time creation establishes the Alert invariants
(`clicked ⟹ read`, `read_at` set iff `read`, `sent_at` set iff `sent`),
and both engagement updates preserve them. -/
theorem C7_alert_invariants_preserved :
    (∀ (userId : String) (a : AlertData) (now : Nat),
      AlertInv (create_alert_record userId a now)) ∧
    (∀ (al : AlertRecord) (t : Nat), AlertInv al → AlertInv (mark_alert_read al t)) ∧
    (∀ (al : AlertRecord) (t : Nat), AlertInv al → AlertInv (record_alert_click al t)) := by
  refine ⟨fun userId a now => ⟨by simp [create_alert_record], ?_, ?_⟩, ?_, ?_⟩ <;>
    simp [AlertInv, create_alert_record, mark_alert_read, record_alert_click]

/-- C7 witness: a freshly created row satisfies the invariants and still
does after a `mark-read` update. -/
theorem C7_witness : AlertInv (mark_alert_read (create_alert_record "u1" alertFlood 0) 5) :=
  C7_alert_invariants_preserved.2.1 (create_alert_record "u1" alertFlood 0) 5
    (C7_alert_invariants_preserved.1 "u1" alertFlood 0)

/-- C8: the disaster-type → preference-flag table is many-to-one — tornado
and wildfire share the severe_storm flag while hurricane, heat_wave,
flood and severe_storm each use their own flag — and the selection-time
SQL gate agrees with the send-time check's table on every one of the six
types, for every preference row. -/
theorem C8_type_gating_table (p : UserPreference) :
    (service_type_map "tornado" = some "severe_storm_alerts" ∧
     service_type_map "wildfire" = some "severe_storm_alerts" ∧
     service_type_map "hurricane" = some "hurricane_alerts" ∧
     service_type_map "heat_wave" = some "heat_wave_alerts" ∧
     service_type_map "flood" = some "flood_alerts" ∧
     service_type_map "severe_storm" = some "severe_storm_alerts") ∧
    (dagTypeGate "tornado" (some p) = service_type_allowed p "tornado" ∧
     dagTypeGate "wildfire" (some p) = service_type_allowed p "wildfire" ∧
     dagTypeGate "hurricane" (some p) = service_type_allowed p "hurricane" ∧
     dagTypeGate "heat_wave" (some p) = service_type_allowed p "heat_wave" ∧
     dagTypeGate "flood" (some p) = service_type_allowed p "flood" ∧
     dagTypeGate "severe_storm" (some p) = service_type_allowed p "severe_storm") := by
  refine ⟨⟨rfl, rfl, rfl, rfl, rfl, rfl⟩, ?_, ?_, ?_, ?_, ?_, ?_⟩ <;>
    simp [dagTypeGate, service_type_allowed, service_type_map, getPrefFlag, coalesceFlag]

/-- C9: a probability of exactly 0.60 passes the risk-threshold rule for
every user whose `min_risk_level` is MEDIUM (the comparison is inclusive)
and fails it for every user whose `min_risk_level` is HIGH, at both the
send-time check and the DAG's selection check. -/
theorem C9_inclusive_medium_boundary (p : UserPreference) :
    (p.min_risk_level = "MEDIUM" →
      service_risk_rejects p.min_risk_level (6/10) = false ∧
      dag_risk_accepts (some p.min_risk_level) (6/10) = true) ∧
    (p.min_risk_level = "HIGH" →
      service_risk_rejects p.min_risk_level (6/10) = true ∧
      dag_risk_accepts (some p.min_risk_level) (6/10) = false) := by
  constructor <;> intro h <;> rw [h] <;> constructor <;>
    simp [service_risk_rejects, serviceThreshold, service_min_risk,
      dag_risk_accepts, dagThreshold, dag_risk_threshold_map] <;>
    norm_num

/-- C9 witness: the MEDIUM half instantiated at the all-default row. -/
theorem C9_witness :
    defaultPreference.min_risk_level = "MEDIUM" ∧
    service_risk_rejects defaultPreference.min_risk_level (6/10) = false ∧
    dag_risk_accepts (some defaultPreference.min_risk_level) (6/10) = true :=
  ⟨rfl, ((C9_inclusive_medium_boundary defaultPreference).1 rfl).1,
    ((C9_inclusive_medium_boundary defaultPreference).1 rfl).2⟩

/-- C10 as frozen is refuted: at risk score 0.9 the DAG helper
`_get_risk_level` classifies HIGH (CRITICAL starts at 0.95) while the
notification payload classifier of `_create_notification` says CRITICAL
(its cutoff is 0.9) — the two classifications are different functions. -/
theorem C10_counterexample_090 :
    dag_get_risk_level (9/10) = "HIGH" ∧
    service_notification_risk_level (9/10) = "CRITICAL" ∧
    dag_get_risk_level (9/10) ≠ service_notification_risk_level (9/10) := by
  have h1 : dag_get_risk_level (9/10) = "HIGH" := by
    simp [dag_get_risk_level]
    norm_num
  have h2 : service_notification_risk_level (9/10) = "CRITICAL" := by
    simp [service_notification_risk_level]
  exact ⟨h1, h2, by rw [h1, h2]; decide⟩

/-- C10 (amended): the two risk-level classifiers agree at every risk
score outside [0.9, 0.95); inside that window the DAG says HIGH and the
notification payload says CRITICAL. -/
theorem C10_risk_level_agreement (riskScore : ℚ)
    (h : riskScore < 9/10 ∨ 95/100 ≤ riskScore) :
    dag_get_risk_level riskScore = service_notification_risk_level riskScore := by
  unfold dag_get_risk_level service_notification_risk_level
  rcases h with h | h <;> split_ifs <;> first | rfl | linarith

/-- C10 witness: agreement at risk score 0.5. -/
theorem C10_witness :
    dag_get_risk_level (1/2) = service_notification_risk_level (1/2) :=
  C10_risk_level_agreement (1/2) (Or.inl (by norm_num))

end StormGuard
